import Mathlib

/-!
Verification of the realtime call component of the chatflow-rt repository.

The embedding below models `src/components/VideoCallModal.tsx` (the call
state, its handlers and the effects they emit) and the call-modal wiring in
`src/pages/Chat.tsx`.  Browser objects are modelled by their observable
content: a `MediaStream` is its list of tracks, an `RTCPeerConnection` is its
configuration plus its sender list, and side effects (console logs, toasts,
signaling sends, track stops, connection closes) are reified as an explicit
effect list returned next to the updated state.
-/

namespace ChatflowRT

/-- Kind of a media track (`MediaStreamTrack.kind` in the browser API used by
the source). -/
inductive TrackKind where
  | audio
  | video
deriving DecidableEq

/-- One media track: its identity, kind and the mutable `enabled` flag that
`toggleMute` / `toggleVideo` in `VideoCallModal.tsx` flip. -/
structure Track where
  id : Nat
  kind : TrackKind
  enabled : Bool
deriving DecidableEq

/-- A `MediaStream`, modelled as its list of tracks. -/
abbrev MediaStream := List Track

/-- Models `stream.getAudioTracks()`. -/
def getAudioTracks (s : MediaStream) : List Track :=
  s.filter (fun t => t.kind == TrackKind.audio)

/-- Models `stream.getVideoTracks()`. -/
def getVideoTracks (s : MediaStream) : List Track :=
  s.filter (fun t => t.kind == TrackKind.video)

/-- An `RTCRtpSender`: the track currently attached to one outbound slot. -/
structure RTCSender where
  track : Option Track
deriving DecidableEq

/-- The peer connection created in `initializeCall`
(VideoCallModal.tsx lines 48-57): the STUN configuration it was created with
and its senders, one per track added with `addTrack`.  The field
`remoteDescriptionSet` records whether `setRemoteDescription` was ever called
on it; no call site for `setRemoteDescription`, `addIceCandidate`,
`createOffer` or `createAnswer` exists anywhere in the repository, so no
operation in this file sets it. -/
structure RTCPeerConnection where
  iceServers : List String
  senders : List RTCSender
  remoteDescriptionSet : Bool
deriving DecidableEq

/-- The STUN server list of VideoCallModal.tsx lines 49-52. -/
def stunServers : List String :=
  ["stun:stun.l.google.com:19302", "stun:stun1.l.google.com:19302"]

/-- Logical signaling message kinds of the signaling boundary (spec section 6);
payloads are abstracted to identifiers. -/
inductive SignalingMessage where
  | offer (sdp : Nat)
  | answer (sdp : Nat)
  | candidate (c : Nat)
  | hangup
deriving DecidableEq

/-- Failure of `getUserMedia` / `getDisplayMedia`. -/
inductive DeviceError where
  | permissionDenied
  | notFound
deriving DecidableEq

/-- A runtime error thrown by the component's own code. -/
inductive JsError where
  | typeError
deriving DecidableEq

/-- Externally observable effects of the component's handlers. -/
inductive Effect where
  | consoleLog
  | toastError
  | sendSignal (roomId : Nat) (m : SignalingMessage)
  | trackStopped (id : Nat)
  | connectionClosed
  | invokeOnClose
  | uncaughtException
deriving DecidableEq

/-- React state of `VideoCallModal` together with its `isOpen` prop
(VideoCallModal.tsx lines 7-20). -/
structure ModalState where
  isOpen : Bool
  isVideoCall : Bool
  localStream : Option MediaStream
  remoteStream : Option MediaStream
  isMuted : Bool
  isVideoEnabled : Bool
  isScreenSharing : Bool
  peerConnection : Option RTCPeerConnection
deriving DecidableEq

/-- Initial state of a freshly mounted modal (lines 15-20): closed, no streams,
not muted, `isVideoEnabled` initialised from `isVideoCall`, not sharing. -/
def initialModal (isVideoCall : Bool) : ModalState :=
  { isOpen := false, isVideoCall := isVideoCall, localStream := none,
    remoteStream := none, isMuted := false, isVideoEnabled := isVideoCall,
    isScreenSharing := false, peerConnection := none }

/-- Constraints object passed to `getUserMedia`. -/
structure MediaConstraints where
  video : Bool
  audio : Bool
deriving DecidableEq

/-- The constraints built in `initializeCall` (lines 38-41):
`{ video: isVideoCall, audio: true }`. -/
def userMediaConstraints (isVideoCall : Bool) : MediaConstraints :=
  { video := isVideoCall, audio := true }

/-- Environment model of a successful `getUserMedia`: the granted stream holds
exactly one track per requested kind, enabled, with fresh identifiers. -/
def grantUserMedia (c : MediaConstraints) (audioId videoId : Nat) : MediaStream :=
  (if c.audio then [{ id := audioId, kind := TrackKind.audio, enabled := true }] else [])
    ++ (if c.video then [{ id := videoId, kind := TrackKind.video, enabled := true }] else [])

/-- Models `initializeCall` (lines 36-81).  `acq` is the result of the awaited
`getUserMedia` call.  On success the stream is stored, a peer connection is
created with the STUN configuration and one sender per track, and the
`ontrack` / `onicecandidate` handlers (modelled separately below) are
installed.  On failure the catch block (lines 73-80) logs the error and shows
a destructive toast; it does not close the modal and creates nothing. -/
def initCall (s : ModalState) (acq : Except DeviceError MediaStream) :
    ModalState × List Effect :=
  match acq with
  | Except.error _ => (s, [Effect.consoleLog, Effect.toastError])
  | Except.ok stream =>
      let pc : RTCPeerConnection :=
        { iceServers := stunServers,
          senders := stream.map (fun t => { track := some t }),
          remoteDescriptionSet := false }
      ({ s with localStream := some stream, peerConnection := some pc }, [])

/-- The `pc.onicecandidate` handler (lines 66-70): a discovered candidate is
written to the console; no signaling send of any kind occurs. -/
def onicecandidate (candidate : Option Nat) : List Effect :=
  match candidate with
  | some _ => [Effect.consoleLog]
  | none => []

/-- The `pc.ontrack` handler (lines 59-64): stores the inbound remote stream. -/
def ontrack (s : ModalState) (remote : MediaStream) : ModalState :=
  { s with remoteStream := some remote }

/-- Models `cleanup` (lines 83-89): stops every track of the local stream,
closes the peer connection, and nulls the three state fields.  The function is
total — the source guards both steps with optional chaining, and neither
`track.stop()` nor `pc.close()` throws. -/
def cleanup (s : ModalState) : ModalState × List Effect :=
  let stops : List Effect :=
    match s.localStream with
    | some stream => stream.map (fun t => Effect.trackStopped t.id)
    | none => []
  let closes : List Effect :=
    match s.peerConnection with
    | some _ => [Effect.connectionClosed]
    | none => []
  ({ s with localStream := none, remoteStream := none, peerConnection := none },
    stops ++ closes)

/-- Models `endCall` (lines 153-156): `cleanup()` then `onClose()`. -/
def endCall (s : ModalState) : ModalState × List Effect :=
  let r := cleanup s
  (r.1, r.2 ++ [Effect.invokeOnClose])

/-- Flips the `enabled` flag of the first track of kind `k`, returning the
updated stream and the track's new flag; `none` when no such track exists, in
which case the source line `track.enabled = !track.enabled` would dereference
`undefined` and throw. -/
def toggleFirst (k : TrackKind) : MediaStream → Option (MediaStream × Bool)
  | [] => none
  | t :: ts =>
      if t.kind == k then
        some ({ t with enabled := !t.enabled } :: ts, !t.enabled)
      else
        (toggleFirst k ts).map (fun p => (t :: p.1, p.2))

/-- Models `toggleMute` (lines 91-97): guarded by `if (localStream)`; flips the
first audio track's `enabled` flag and sets `isMuted` to the negation of the
track's new value. -/
def toggleMute (s : ModalState) : Except JsError ModalState :=
  match s.localStream with
  | none => Except.ok s
  | some stream =>
      match toggleFirst TrackKind.audio stream with
      | none => Except.error JsError.typeError
      | some p => Except.ok { s with localStream := some p.1, isMuted := !p.2 }

/-- Models `toggleVideo` (lines 99-105): same shape on the first video track,
setting `isVideoEnabled` to the track's new value. -/
def toggleVideo (s : ModalState) : Except JsError ModalState :=
  match s.localStream with
  | none => Except.ok s
  | some stream =>
      match toggleFirst TrackKind.video stream with
      | none => Except.error JsError.typeError
      | some p => Except.ok { s with localStream := some p.1, isVideoEnabled := p.2 }

/-- Whether a sender currently carries a video track — the predicate of
`getSenders().find(s => s.track?.kind === 'video')`. -/
def isVideoSender (sn : RTCSender) : Bool :=
  match sn.track with
  | some t => t.kind == TrackKind.video
  | none => false

/-- The `find` + `sender.replaceTrack(newTrack)` pair: replaces the track of
the first video sender, leaving the list unchanged when none exists (the
source's `if (sender)` guard). -/
def replaceVideoTrack : List RTCSender → Track → List RTCSender
  | [], _ => []
  | sn :: rest, t =>
      if isVideoSender sn then { track := some t } :: rest
      else sn :: replaceVideoTrack rest t

/-- Whether the state's connection has a video sender. -/
def hasVideoSender (s : ModalState) : Bool :=
  match s.peerConnection with
  | some pc => pc.senders.any isVideoSender
  | none => false

/-- Applies `replaceVideoTrack` to the state's connection, if any. -/
def replaceOutboundVideo (s : ModalState) (t : Track) : ModalState :=
  { s with peerConnection :=
      s.peerConnection.map (fun pc => { pc with senders := replaceVideoTrack pc.senders t }) }

/-- Data captured by the `videoTrack.onended` closure installed at share start
(lines 123-129): whether a video sender had been found at that render, and the
`localStream` value of that render. -/
structure ScreenEndHandler where
  senderFound : Bool
  capturedLocalStream : Option MediaStream
deriving DecidableEq

/-- Models `toggleScreenShare` (lines 107-151).  `screenAcq` is the result of
`getDisplayMedia({ video: true })`, modelled as the acquired screen stream's
video track (such a stream always carries one).  Returns the new state, the
effects emitted, and the `onended` handler installed when sharing starts.
Start branch: replace the first video sender's track with the screen track
(guarded by `if (sender)`), install the `onended` closure, set the sharing
flag; a failed acquisition is caught, logged and toasted.  Stop branch:
replace the sender's track back with the local stream's first video track
(guarded by `if (videoTrack && sender)`) and clear the flag.  No signaling
message is sent on either path. -/
def toggleScreenShare (s : ModalState) (screenAcq : Except JsError Track) :
    ModalState × List Effect × Option ScreenEndHandler :=
  if s.isScreenSharing = false then
    match screenAcq with
    | Except.error _ => (s, [Effect.consoleLog, Effect.toastError], none)
    | Except.ok screenTrack =>
        let found := hasVideoSender s
        let s1 := if found then replaceOutboundVideo s screenTrack else s
        ({ s1 with isScreenSharing := true }, [],
          some { senderFound := found, capturedLocalStream := s.localStream })
  else
    let videoTrack := s.localStream.bind (fun st => (getVideoTracks st).head?)
    let s1 :=
      match videoTrack with
      | some t => if hasVideoSender s then replaceOutboundVideo s t else s
      | none => s
    ({ s1 with isScreenSharing := false }, [], none)

/-- The `onended` handler of the screen track (lines 123-129): restores the
captured stream's first video track on the captured sender (guarded by
`if (originalVideoTrack && sender)`) and clears the sharing flag. -/
def screenTrackEnded (h : ScreenEndHandler) (s : ModalState) : ModalState :=
  let originalVideoTrack := h.capturedLocalStream.bind (fun st => (getVideoTracks st).head?)
  let s1 :=
    match originalVideoTrack with
    | some t => if h.senderFound then replaceOutboundVideo s t else s
    | none => s
  { s1 with isScreenSharing := false }

/-- External events a mounted call modal can receive. -/
inductive CallEvent where
  | acquired (r : Except DeviceError MediaStream)
  | remoteTrackArrived (st : MediaStream)
  | iceCandidateFound (c : Option Nat)
  | signalReceived (m : SignalingMessage)
  | clickMute
  | clickVideo
  | clickScreenShare (acq : Except JsError Track)
  | screenCaptureEnded (h : ScreenEndHandler)
  | clickEnd

/-- One event-handling step of the modal.  `signalReceived` is the delivery of
an inbound signaling message to this client: the component registers no
signaling subscription (no realtime channel for call signaling exists anywhere
in the repository — the only channels are `messages:` and `typing:` in
ChatWindow.tsx), so the message reaches no handler and the state is unchanged.
A `clickMute` / `clickVideo` whose source line would throw is modelled as an
uncaught exception effect with the state unchanged. -/
def modalStep (s : ModalState) (ev : CallEvent) : ModalState × List Effect :=
  match ev with
  | CallEvent.acquired r => initCall s r
  | CallEvent.remoteTrackArrived st => (ontrack s st, [])
  | CallEvent.iceCandidateFound c => (s, onicecandidate c)
  | CallEvent.signalReceived _ => (s, [])
  | CallEvent.clickMute =>
      match toggleMute s with
      | Except.ok s1 => (s1, [])
      | Except.error _ => (s, [Effect.uncaughtException])
  | CallEvent.clickVideo =>
      match toggleVideo s with
      | Except.ok s1 => (s1, [])
      | Except.error _ => (s, [Effect.uncaughtException])
  | CallEvent.clickScreenShare acq =>
      ((toggleScreenShare s acq).1, (toggleScreenShare s acq).2.1)
  | CallEvent.screenCaptureEnded h => (screenTrackEnded h s, [])
  | CallEvent.clickEnd => endCall s

/-- Runs a sequence of events from a state. -/
def runModal (s : ModalState) (evs : List CallEvent) : ModalState :=
  evs.foldl (fun s e => (modalStep s e).1) s

/-- State of the `Chat` page (src/pages/Chat.tsx): the selected room and the
two independently rendered call modals (lines 84-99) — one video, one audio. -/
structure ChatState where
  selectedRoomId : Option Nat
  showVideoCall : Bool
  showAudioCall : Bool
  videoModal : ModalState
  audioModal : ModalState
deriving DecidableEq

/-- Initial `Chat` page state (lines 17-20). -/
def chatInit : ChatState :=
  { selectedRoomId := none, showVideoCall := false, showAudioCall := false,
    videoModal := initialModal true, audioModal := initialModal false }

/-- Selecting a room in the sidebar. -/
def selectRoom (c : ChatState) (r : Nat) : ChatState :=
  { c with selectedRoomId := some r }

/-- `onVideoCall` (Chat.tsx line 69): `setShowVideoCall(true)` opens the video
modal, whose `useEffect` (VideoCallModal.tsx lines 26-34) runs
`initializeCall`; `acq` is that call's `getUserMedia` result.  No code
releases the other modal's stream first. -/
def clickVideoCall (c : ChatState) (acq : Except DeviceError MediaStream) :
    ChatState × List Effect :=
  let r := initCall { c.videoModal with isOpen := true } acq
  ({ c with showVideoCall := true, videoModal := r.1 }, r.2)

/-- `onAudioCall` (Chat.tsx line 70): same for the audio modal. -/
def clickAudioCall (c : ChatState) (acq : Except DeviceError MediaStream) :
    ChatState × List Effect :=
  let r := initCall { c.audioModal with isOpen := true } acq
  ({ c with showAudioCall := true, audioModal := r.1 }, r.2)

/-- Number of video-carrying senders on the state's connection. -/
def videoSenderCount (s : ModalState) : Nat :=
  match s.peerConnection with
  | some pc => pc.senders.countP isVideoSender
  | none => 0

/-- The track carried by the first video sender, if any. -/
def firstVideoSenderTrack (s : ModalState) : Option Track :=
  s.peerConnection.bind (fun pc => (pc.senders.find? isVideoSender).bind (fun sn => sn.track))

/-- The `enabled` flag of the local stream's first audio track, if any. -/
def firstAudioEnabled (s : ModalState) : Option Bool :=
  s.localStream.bind (fun st => ((getAudioTracks st).head?).map (fun t => t.enabled))

/-- Recognises a track-stop effect. -/
def isTrackStop : Effect → Bool
  | Effect.trackStopped _ => true
  | _ => false

/-- Recognises a signaling-send effect. -/
def isSendSignal : Effect → Bool
  | Effect.sendSignal _ _ => true
  | _ => false

/-- Whether the connection's remote description has been set. -/
def remoteDescSet (s : ModalState) : Bool :=
  match s.peerConnection with
  | some pc => pc.remoteDescriptionSet
  | none => false

/-- The call session ends exactly when the modal closes: `cleanup` runs on the
close transition (the `useEffect` teardown, lines 31-33) and `endCall` invokes
`onClose`; while the modal is open the session is live. -/
def callEnded (s : ModalState) : Bool := !s.isOpen

/-- A video modal that has been opened (its `isOpen` prop set) but has not yet
acquired anything. -/
def mountedVideoModal : ModalState := { initialModal true with isOpen := true }

/-- An audio modal that has been opened. -/
def mountedAudioModal : ModalState := { initialModal false with isOpen := true }

/-- A concrete microphone track. -/
def demoAudioTrack : Track := { id := 5, kind := TrackKind.audio, enabled := true }

/-- A concrete camera track. -/
def demoCam : Track := { id := 6, kind := TrackKind.video, enabled := true }

/-- A concrete camera-plus-microphone stream. -/
def demoStream : MediaStream := [demoAudioTrack, demoCam]

/-- The connection `initializeCall` builds for `demoStream`. -/
def demoPC : RTCPeerConnection :=
  { iceServers := stunServers,
    senders := demoStream.map (fun t => { track := some t }),
    remoteDescriptionSet := false }

/-- A concrete active video call: stream acquired, connection live, camera
video outbound, not sharing. -/
def demoActive : ModalState :=
  { isOpen := true, isVideoCall := true, localStream := some demoStream,
    remoteStream := some [{ id := 7, kind := TrackKind.audio, enabled := true }],
    isMuted := false, isVideoEnabled := true, isScreenSharing := false,
    peerConnection := some demoPC }

/-- A concrete screen-capture track. -/
def demoScreenTrack : Track := { id := 9, kind := TrackKind.video, enabled := true }

/-- C1.  Every invocation of the candidate-discovery callback only writes the
candidate to the console: the handler emits exactly a console log and no
signaling send, and in fact no event the modal handles ever emits a signaling
send — the component never talks to a signaling relay at all. -/
theorem candidates_logged_never_forwarded (s : ModalState) (c : Nat) (ev : CallEvent) :
    modalStep s (CallEvent.iceCandidateFound (some c)) = (s, [Effect.consoleLog]) ∧
    (modalStep s ev).2.countP isSendSignal = 0 := by
  constructor
  · rfl
  · cases ev with
    | acquired r => cases r <;> simp [modalStep, initCall, isSendSignal]
    | remoteTrackArrived st => simp [modalStep]
    | iceCandidateFound c => cases c <;> simp [modalStep, onicecandidate, isSendSignal]
    | signalReceived m => simp [modalStep]
    | clickMute =>
        simp only [modalStep]
        cases toggleMute s <;> simp [isSendSignal]
    | clickVideo =>
        simp only [modalStep]
        cases toggleVideo s <;> simp [isSendSignal]
    | clickScreenShare acq =>
        simp only [modalStep]
        by_cases hsh : s.isScreenSharing = false
        · cases acq <;> simp [toggleScreenShare, hsh, isSendSignal]
        · simp [toggleScreenShare, hsh]
    | screenCaptureEnded h => simp [modalStep]
    | clickEnd =>
        simp only [modalStep, endCall, cleanup]
        cases s.localStream <;> cases s.peerConnection <;>
          simp [List.countP_append, List.countP_eq_zero, List.mem_map, isSendSignal]

/-- C2.  Hang-up (`cleanup`) is a total function — no invocation throws — and
invoking it twice in succession changes nothing on the second invocation and
emits no further effect: across both invocations every local track is stopped
exactly once (one stop per track of the stream) and the connection is closed
exactly once. -/
theorem cleanup_idempotent (s : ModalState) :
    cleanup (cleanup s).1 = ((cleanup s).1, []) ∧
    ((cleanup s).2 ++ (cleanup (cleanup s).1).2).countP isTrackStop =
      (match s.localStream with | some stream => stream.length | none => 0) ∧
    ((cleanup s).2 ++ (cleanup (cleanup s).1).2).count Effect.connectionClosed =
      (match s.peerConnection with | some _ => 1 | none => 0) := by
  refine ⟨rfl, ?_, ?_⟩ <;>
    cases hls : s.localStream <;> cases hpc : s.peerConnection <;>
      simp [cleanup, hls, hpc, List.countP_append, List.countP_eq_zero, List.mem_map,
        isTrackStop, List.count_append, List.count_eq_zero]

/-- C6 counterexample.  With the video modal open, a `DeviceError` from media
acquisition does not end the session: the modal stays open (`callEnded` is
false) and the close callback is never invoked, contradicting the claimed
transition to `ended`. -/
theorem deviceError_not_ended_cex :
    callEnded (initCall mountedVideoModal (Except.error DeviceError.permissionDenied)).1 = false ∧
    (initCall mountedVideoModal (Except.error DeviceError.permissionDenied)).2.count
      Effect.invokeOnClose = 0 := by decide

/-- C6 amended.  When media acquisition fails with a `DeviceError`, the modal
state is unchanged — in particular no peer connection is ever created — no
signaling message is sent, and the error is surfaced to the user as a toast
notification; the session is not transitioned to `ended`. -/
theorem deviceError_no_connection_no_signaling (s : ModalState) (e : DeviceError) :
    (initCall s (Except.error e)).1 = s ∧
    (initCall s (Except.error e)).2 = [Effect.consoleLog, Effect.toastError] ∧
    (initCall s (Except.error e)).2.countP isSendSignal = 0 ∧
    Effect.toastError ∈ (initCall s (Except.error e)).2 := by
  refine ⟨rfl, rfl, by simp [initCall, isSendSignal], by simp [initCall]⟩

/-- Stream granted to the video modal in the C8 run. -/
def streamA : MediaStream :=
  [{ id := 0, kind := TrackKind.audio, enabled := true },
   { id := 1, kind := TrackKind.video, enabled := true }]

/-- Stream granted to the audio modal in the C8 run. -/
def streamB : MediaStream :=
  [{ id := 2, kind := TrackKind.audio, enabled := true }]

/-- Chat page after the user selects room 1 and starts a video call. -/
def chatAfterVideoCall : ChatState :=
  (clickVideoCall (selectRoom chatInit 1) (Except.ok streamA)).1

/-- Chat page after additionally starting an audio call. -/
def chatAfterBothCalls : ChatState :=
  (clickAudioCall chatAfterVideoCall (Except.ok streamB)).1

/-- C8.  Starting an audio call while the video call modal already holds the
capture stream leaves both modal instances holding live capture streams
concurrently, and the second acquisition is performed without a single track
of the first session being stopped: the code has no single-session ownership
and no release-before-acquire step. -/
theorem two_sessions_hold_capture :
    chatAfterBothCalls.videoModal.localStream = some streamA ∧
    chatAfterBothCalls.audioModal.localStream = some streamB ∧
    chatAfterBothCalls.showVideoCall = true ∧
    chatAfterBothCalls.showAudioCall = true ∧
    (clickAudioCall chatAfterVideoCall (Except.ok streamB)).2.countP isTrackStop = 0 ∧
    (clickVideoCall (selectRoom chatInit 1) (Except.ok streamA)).2.countP isTrackStop = 0 := by
  decide

/-- C9.  The constraints built by `initializeCall` request camera plus
microphone for a video call and microphone only for an audio call, and the
stream the environment grants for an audio call therefore contains no video
track (and exactly one audio track); in particular the audio modal's local
stream after a successful acquisition has no video track. -/
theorem acquisition_matches_call_kind (audioId videoId : Nat) :
    userMediaConstraints true = { video := true, audio := true } ∧
    userMediaConstraints false = { video := false, audio := true } ∧
    getVideoTracks (grantUserMedia (userMediaConstraints false) audioId videoId) = [] ∧
    (getAudioTracks (grantUserMedia (userMediaConstraints false) audioId videoId)).length = 1 ∧
    (getVideoTracks (grantUserMedia (userMediaConstraints true) audioId videoId)).length = 1 ∧
    ((initCall mountedAudioModal
        (Except.ok (grantUserMedia (userMediaConstraints false) audioId videoId))).1.localStream.map
      getVideoTracks) = some [] := by
  refine ⟨rfl, rfl, ?_, ?_, ?_, ?_⟩ <;>
    simp [grantUserMedia, userMediaConstraints, getVideoTracks, getAudioTracks,
      initCall, mountedAudioModal, initialModal]

/-- C10.  When no local stream is held (not yet acquired, acquisition failed,
or cleanup already ran), both the mute toggle and the video toggle return the
state completely unchanged and raise no error. -/
theorem toggles_noop_without_stream (s : ModalState) (h : s.localStream = none) :
    toggleMute s = Except.ok s ∧ toggleVideo s = Except.ok s := by
  unfold toggleMute toggleVideo
  rw [h]
  exact ⟨rfl, rfl⟩

/-- C10 witness: a freshly mounted modal holds no stream and both toggles keep
it unchanged. -/
theorem toggles_noop_without_stream_witness :
    toggleMute (initialModal true) = Except.ok (initialModal true) ∧
    toggleVideo (initialModal true) = Except.ok (initialModal true) :=
  toggles_noop_without_stream (initialModal true) rfl

/-- A successful mute toggle keeps the peer connection. -/
theorem toggleMute_pc (s s1 : ModalState) (h : toggleMute s = Except.ok s1) :
    s1.peerConnection = s.peerConnection := by
  unfold toggleMute at h
  split at h
  · injection h with h1; subst h1; rfl
  · split at h
    · exact Except.noConfusion h
    · injection h with h1; subst h1; rfl

/-- A successful video toggle keeps the peer connection. -/
theorem toggleVideo_pc (s s1 : ModalState) (h : toggleVideo s = Except.ok s1) :
    s1.peerConnection = s.peerConnection := by
  unfold toggleVideo at h
  split at h
  · injection h with h1; subst h1; rfl
  · split at h
    · exact Except.noConfusion h
    · injection h with h1; subst h1; rfl

/-- Replacing the outbound video track keeps the remote-description flag. -/
theorem replaceOutboundVideo_descSet (s : ModalState) (t : Track) :
    remoteDescSet (replaceOutboundVideo s t) = remoteDescSet s := by
  unfold replaceOutboundVideo remoteDescSet
  cases s.peerConnection <;> rfl

/-- A screen-share toggle keeps the remote-description flag. -/
theorem toggleScreenShare_descSet (s : ModalState) (acq : Except JsError Track) :
    remoteDescSet (toggleScreenShare s acq).1 = remoteDescSet s := by
  unfold toggleScreenShare
  split
  · cases acq with
    | error e => rfl
    | ok t =>
        show remoteDescSet (if hasVideoSender s then replaceOutboundVideo s t else s)
          = remoteDescSet s
        split
        · exact replaceOutboundVideo_descSet s t
        · rfl
  · show remoteDescSet
        (match s.localStream.bind (fun st => (getVideoTracks st).head?) with
          | some t => if hasVideoSender s then replaceOutboundVideo s t else s
          | none => s) = remoteDescSet s
    split
    · split
      · exact replaceOutboundVideo_descSet s _
      · rfl
    · rfl

/-- The screen-capture end handler keeps the remote-description flag. -/
theorem screenTrackEnded_descSet (h : ScreenEndHandler) (s : ModalState) :
    remoteDescSet (screenTrackEnded h s) = remoteDescSet s := by
  unfold screenTrackEnded
  show remoteDescSet
      (match h.capturedLocalStream.bind (fun st => (getVideoTracks st).head?) with
        | some t => if h.senderFound then replaceOutboundVideo s t else s
        | none => s) = remoteDescSet s
  split
  · split
    · exact replaceOutboundVideo_descSet s _
    · rfl
  · rfl

/-- No event the modal handles ever sets the remote description: the repository
contains no `setRemoteDescription` call. -/
theorem remoteDescSet_step (s : ModalState) (ev : CallEvent)
    (h : remoteDescSet s = false) : remoteDescSet (modalStep s ev).1 = false := by
  cases ev with
  | acquired r =>
      cases r with
      | error e => exact h
      | ok stream => rfl
  | remoteTrackArrived st => exact h
  | iceCandidateFound c => exact h
  | signalReceived m => exact h
  | clickMute =>
      simp only [modalStep]
      split
      · next s1 heq =>
          show remoteDescSet s1 = false
          rw [remoteDescSet, toggleMute_pc s s1 heq, ← remoteDescSet]
          exact h
      · exact h
  | clickVideo =>
      simp only [modalStep]
      split
      · next s1 heq =>
          show remoteDescSet s1 = false
          rw [remoteDescSet, toggleVideo_pc s s1 heq, ← remoteDescSet]
          exact h
      · exact h
  | clickScreenShare acq =>
      simp only [modalStep]
      rw [toggleScreenShare_descSet s acq]
      exact h
  | screenCaptureEnded hd =>
      simp only [modalStep]
      rw [screenTrackEnded_descSet hd s]
      exact h
  | clickEnd => rfl

/-- C3.  An inbound `candidate` signaling message delivered before any remote
description reaches no handler and is dropped: the delivery step returns the
state unchanged with no effect (nothing is buffered — the component registers
no signaling subscription), and along every event sequence from a fresh modal
the remote description is never set, so a premature candidate can never be
applied later either. -/
theorem premature_candidates_dropped (s : ModalState) (c : Nat) (evs : List CallEvent) :
    modalStep s (CallEvent.signalReceived (SignalingMessage.candidate c)) = (s, []) ∧
    remoteDescSet (runModal (initialModal true) evs) = false := by
  refine ⟨rfl, ?_⟩
  have main : ∀ (l : List CallEvent) (s0 : ModalState), remoteDescSet s0 = false →
      remoteDescSet (runModal s0 l) = false := by
    intro l
    induction l with
    | nil => intro s0 h0; exact h0
    | cons e rest ih => intro s0 h0; exact ih (modalStep s0 e).1 (remoteDescSet_step s0 e h0)
  exact main evs (initialModal true) rfl

/-- Replacing the first video sender's track by another video track preserves
the number of video-carrying senders. -/
theorem countP_replaceVideoTrack (l : List RTCSender) (t : Track)
    (ht : t.kind = TrackKind.video) :
    (replaceVideoTrack l t).countP isVideoSender = l.countP isVideoSender := by
  induction l with
  | nil => rfl
  | cons sn rest ih =>
      unfold replaceVideoTrack
      by_cases hs : isVideoSender sn = true
      · have hp : isVideoSender { track := some t } = true := by simp [isVideoSender, ht]
        simp [hs, hp, List.countP_cons]
      · simp [hs, List.countP_cons, ih]

/-- After replacing the first video sender's track by a video track, the first
video sender carries exactly that track. -/
theorem find?_replaceVideoTrack (l : List RTCSender) (t : Track)
    (ht : t.kind = TrackKind.video) (hex : l.any isVideoSender = true) :
    (replaceVideoTrack l t).find? isVideoSender = some { track := some t } := by
  induction l with
  | nil => simp at hex
  | cons sn rest ih =>
      unfold replaceVideoTrack
      by_cases hs : isVideoSender sn = true
      · have hp : isVideoSender { track := some t } = true := by simp [isVideoSender, ht]
        simp [hs, List.find?_cons_of_pos, hp]
      · have hex' : rest.any isVideoSender = true := by
          simp [List.any_cons, hs] at hex
          simpa using hex
        simp [hs, List.find?_cons_of_neg, ih hex']

/-- The sender list still has a video sender after the replacement. -/
theorem any_replaceVideoTrack (l : List RTCSender) (t : Track)
    (ht : t.kind = TrackKind.video) (hex : l.any isVideoSender = true) :
    (replaceVideoTrack l t).any isVideoSender = true := by
  have hf := find?_replaceVideoTrack l t ht hex
  exact List.any_eq_true.2 ⟨_, List.mem_of_find?_eq_some hf, List.find?_some hf⟩

/-- The head of `getVideoTracks` is a video track. -/
theorem head?_getVideoTracks_kind (st : MediaStream) (t : Track)
    (h : (getVideoTracks st).head? = some t) : t.kind = TrackKind.video := by
  have hm : t ∈ getVideoTracks st := by
    cases hg : getVideoTracks st with
    | nil => rw [hg] at h; exact Option.noConfusion h
    | cons a l =>
        rw [hg] at h
        injection h with h1
        subst h1
        exact List.mem_cons_self a l
  have := List.of_mem_filter hm
  simpa [getVideoTracks] using (by simpa [getVideoTracks] using this : (t.kind == TrackKind.video) = true)

/-- Replacing the outbound video track by a video track preserves the video
sender count. -/
theorem videoSenderCount_replace (s : ModalState) (t : Track)
    (ht : t.kind = TrackKind.video) :
    videoSenderCount (replaceOutboundVideo s t) = videoSenderCount s := by
  unfold videoSenderCount replaceOutboundVideo
  cases s.peerConnection with
  | none => rfl
  | some pc => simp [countP_replaceVideoTrack pc.senders t ht]

/-- After replacing the outbound video track, the first video sender carries
the new track. -/
theorem firstVideoSenderTrack_replace (s : ModalState) (pc : RTCPeerConnection) (t : Track)
    (hpc : s.peerConnection = some pc) (hk : t.kind = TrackKind.video)
    (hany : pc.senders.any isVideoSender = true) :
    firstVideoSenderTrack (replaceOutboundVideo s t) = some t := by
  simp [firstVideoSenderTrack, replaceOutboundVideo, hpc,
    find?_replaceVideoTrack pc.senders t hk hany]

/-- Share start on a non-sharing state with a video sender: the screen track
replaces the outbound video track, no effect is emitted, and the `onended`
closure capturing the current local stream is installed. -/
theorem toggleScreenShare_start (x : ModalState) (scr : Track)
    (hsh : x.isScreenSharing = false) (hfound : hasVideoSender x = true) :
    toggleScreenShare x (Except.ok scr) =
      ({ replaceOutboundVideo x scr with isScreenSharing := true }, [],
        some { senderFound := true, capturedLocalStream := x.localStream }) := by
  unfold toggleScreenShare
  rw [hsh]
  simp [hfound]

/-- Share stop on a sharing state whose local stream has a camera video track:
the camera track replaces the outbound video track and no effect is emitted. -/
theorem toggleScreenShare_stop (x : ModalState) (stream : MediaStream) (v : Track)
    (acq : Except JsError Track)
    (hsh : x.isScreenSharing = true)
    (hls : x.localStream = some stream)
    (hv : (getVideoTracks stream).head? = some v)
    (hfound : hasVideoSender x = true) :
    toggleScreenShare x acq =
      ({ replaceOutboundVideo x v with isScreenSharing := false }, [], none) := by
  unfold toggleScreenShare
  rw [hsh]
  simp [hls, hv, hfound]

/-- The `onended` handler with a captured stream holding a camera video track
and a captured sender: the camera track replaces the outbound video track. -/
theorem screenTrackEnded_eq (hd : ScreenEndHandler) (x : ModalState)
    (stream : MediaStream) (v : Track)
    (hcap : hd.capturedLocalStream = some stream)
    (hv : (getVideoTracks stream).head? = some v)
    (hfd : hd.senderFound = true) :
    screenTrackEnded hd x = { replaceOutboundVideo x v with isScreenSharing := false } := by
  unfold screenTrackEnded
  simp [hcap, hv, hfd]

/-- C4.  In a session whose connection carries exactly one video-producing
sender, every `replaceTrack` path of the screen-share feature — share start,
user stop, and external end of the capture — leaves exactly one
video-producing sender attached: the swap is a single in-place replacement,
never a remove-then-add, so the count is never zero and never two. -/
theorem video_slot_exclusive :
    (∀ (s : ModalState) (scr : Track), scr.kind = TrackKind.video →
        videoSenderCount s = 1 → s.isScreenSharing = false →
        videoSenderCount (toggleScreenShare s (Except.ok scr)).1 = 1) ∧
    (∀ (s : ModalState) (acq : Except JsError Track), videoSenderCount s = 1 →
        s.isScreenSharing = true →
        videoSenderCount (toggleScreenShare s acq).1 = 1) ∧
    (∀ (s : ModalState) (hd : ScreenEndHandler), videoSenderCount s = 1 →
        videoSenderCount (screenTrackEnded hd s) = 1) := by
  refine ⟨?_, ?_, ?_⟩
  · intro s scr hk h1 hsh
    unfold toggleScreenShare
    split
    · show videoSenderCount (if hasVideoSender s then replaceOutboundVideo s scr else s) = 1
      split
      · rw [videoSenderCount_replace s scr hk]; exact h1
      · exact h1
    · next hc => exact absurd hsh hc
  · intro s acq h1 hsh
    unfold toggleScreenShare
    split
    · next hc => rw [hsh] at hc; exact absurd hc (by simp)
    · show videoSenderCount
          (match s.localStream.bind (fun st => (getVideoTracks st).head?) with
            | some t => if hasVideoSender s then replaceOutboundVideo s t else s
            | none => s) = 1
      split
      · next t heq =>
          obtain ⟨st, hst, hh⟩ := Option.bind_eq_some.1 heq
          split
          · rw [videoSenderCount_replace s t (head?_getVideoTracks_kind st t hh)]; exact h1
          · exact h1
      · exact h1
  · intro s hd h1
    unfold screenTrackEnded
    show videoSenderCount
        (match hd.capturedLocalStream.bind (fun st => (getVideoTracks st).head?) with
          | some t => if hd.senderFound then replaceOutboundVideo s t else s
          | none => s) = 1
    split
    · next t heq =>
        obtain ⟨st, hst, hh⟩ := Option.bind_eq_some.1 heq
        split
        · rw [videoSenderCount_replace s t (head?_getVideoTracks_kind st t hh)]; exact h1
        · exact h1
    · exact h1

/-- C4 witness: the concrete active call has exactly one video sender, and
starting a screen share or ending the capture externally keeps it at one. -/
theorem video_slot_exclusive_witness :
    videoSenderCount (toggleScreenShare demoActive (Except.ok demoScreenTrack)).1 = 1 ∧
    videoSenderCount
      (screenTrackEnded { senderFound := true, capturedLocalStream := some demoStream }
        demoActive) = 1 :=
  ⟨video_slot_exclusive.1 demoActive demoScreenTrack rfl (by decide) rfl,
   video_slot_exclusive.2.2 demoActive
     { senderFound := true, capturedLocalStream := some demoStream } (by decide)⟩

/-- Flipping the first audio track: the toggled stream's first audio track is
the old one with its `enabled` flag negated, and the returned flag is the new
value. -/
theorem toggleFirst_audio (stream : MediaStream) (a : Track)
    (h : (getAudioTracks stream).head? = some a) :
    ∃ stream', toggleFirst TrackKind.audio stream = some (stream', !a.enabled) ∧
      (getAudioTracks stream').head? = some { a with enabled := !a.enabled } := by
  induction stream with
  | nil => simp [getAudioTracks] at h
  | cons t ts ih =>
      by_cases hk : (t.kind == TrackKind.audio) = true
      · have hg : getAudioTracks (t :: ts) = t :: getAudioTracks ts := by
          simp [getAudioTracks, List.filter_cons, hk]
        rw [hg] at h
        injection h with h1
        subst h1
        refine ⟨{ t with enabled := !t.enabled } :: ts, ?_, ?_⟩
        · simp [toggleFirst, hk]
        · simp [getAudioTracks, List.filter_cons, hk]
      · have hg : getAudioTracks (t :: ts) = getAudioTracks ts := by
          simp [getAudioTracks, List.filter_cons, hk]
        rw [hg] at h
        obtain ⟨ts', h1, h2⟩ := ih h
        refine ⟨t :: ts', ?_, ?_⟩
        · simp [toggleFirst, hk, h1]
        · rw [show getAudioTracks (t :: ts') = getAudioTracks ts' from by
            simp [getAudioTracks, List.filter_cons, hk]]
          exact h2

/-- C5.  From a state holding a local stream whose first audio track is `a`,
toggling mute once flips the track's `enabled` flag and sets `isMuted` to its
negation, and toggling again restores the original `enabled` value, with
`isMuted` again the negation of the track's current flag after each step. -/
theorem mute_roundtrip (s : ModalState) (stream : MediaStream) (a : Track)
    (hs : s.localStream = some stream)
    (ha : (getAudioTracks stream).head? = some a) :
    ∃ s1 s2, toggleMute s = Except.ok s1 ∧ toggleMute s1 = Except.ok s2 ∧
      s1.isMuted = a.enabled ∧ firstAudioEnabled s1 = some (!a.enabled) ∧
      s2.isMuted = (!a.enabled) ∧ firstAudioEnabled s2 = some a.enabled := by
  obtain ⟨st1, h1, h1h⟩ := toggleFirst_audio stream a ha
  obtain ⟨st2, h2, h2h⟩ := toggleFirst_audio st1 _ h1h
  refine ⟨{ s with localStream := some st1, isMuted := !(!a.enabled) },
    { s with localStream := some st2, isMuted := !(!(!a.enabled)) }, ?_, ?_, ?_, ?_, ?_, ?_⟩
  · simp [toggleMute, hs, h1]
  · simp [toggleMute, h2]
  · simp
  · simp [firstAudioEnabled, h1h]
  · simp
  · simp [firstAudioEnabled, h2h]

/-- C5 witness: the concrete active call starts unmuted with the microphone
track enabled; two toggles round-trip it. -/
theorem mute_roundtrip_witness :
    ∃ s1 s2, toggleMute demoActive = Except.ok s1 ∧ toggleMute s1 = Except.ok s2 ∧
      s1.isMuted = demoAudioTrack.enabled ∧
      firstAudioEnabled s1 = some (!demoAudioTrack.enabled) ∧
      s2.isMuted = (!demoAudioTrack.enabled) ∧
      firstAudioEnabled s2 = some demoAudioTrack.enabled :=
  mute_roundtrip demoActive demoStream demoAudioTrack rfl rfl

/-- C7.  On an active call with camera video attached, starting screen share
replaces the outbound video track with the screen track while emitting no
effect at all (in particular no signaling message); stopping by user action,
or the capture ending externally via the installed handler, reverts the
outbound video track to the original camera track and clears the sharing
flag. -/
theorem screenshare_replace_and_revert (s : ModalState) (stream : MediaStream)
    (v scr : Track) (pc : RTCPeerConnection)
    (hs : s.localStream = some stream)
    (hv : (getVideoTracks stream).head? = some v)
    (hpc : s.peerConnection = some pc)
    (hany : pc.senders.any isVideoSender = true)
    (hsh : s.isScreenSharing = false)
    (hk : scr.kind = TrackKind.video) :
    ∃ s1 hd, toggleScreenShare s (Except.ok scr) = (s1, [], some hd) ∧
      s1.isScreenSharing = true ∧
      firstVideoSenderTrack s1 = some scr ∧
      s1.localStream = some stream ∧
      (∀ acq, (toggleScreenShare s1 acq).1.isScreenSharing = false ∧
        firstVideoSenderTrack (toggleScreenShare s1 acq).1 = some v ∧
        (toggleScreenShare s1 acq).2.1 = []) ∧
      (screenTrackEnded hd s1).isScreenSharing = false ∧
      firstVideoSenderTrack (screenTrackEnded hd s1) = some v := by
  have hkv : v.kind = TrackKind.video := head?_getVideoTracks_kind stream v hv
  have hfound : hasVideoSender s = true := by
    simp [hasVideoSender, hpc, hany]
  have hany1 : (replaceVideoTrack pc.senders scr).any isVideoSender = true :=
    any_replaceVideoTrack pc.senders scr hk hany
  have hpc1 : (replaceOutboundVideo s scr).peerConnection
      = some { pc with senders := replaceVideoTrack pc.senders scr } := by
    simp [replaceOutboundVideo, hpc]
  have hfound1 : hasVideoSender (replaceOutboundVideo s scr) = true := by
    simp [hasVideoSender, hpc1, hany1]
  have hrep1 : firstVideoSenderTrack (replaceOutboundVideo (replaceOutboundVideo s scr) v)
      = some v :=
    firstVideoSenderTrack_replace (replaceOutboundVideo s scr) _ v hpc1 hkv hany1
  refine ⟨{ replaceOutboundVideo s scr with isScreenSharing := true },
    { senderFound := true, capturedLocalStream := some stream }, ?_, rfl, ?_, ?_, ?_, rfl, ?_⟩
  · rw [toggleScreenShare_start s scr hsh hfound, hs]
  · exact firstVideoSenderTrack_replace s pc scr hpc hk hany
  · exact hs
  · intro acq
    rw [toggleScreenShare_stop { replaceOutboundVideo s scr with isScreenSharing := true }
      stream v acq rfl hs hv hfound1]
    exact ⟨rfl, hrep1, rfl⟩
  · rw [screenTrackEnded_eq { senderFound := true, capturedLocalStream := some stream }
      { replaceOutboundVideo s scr with isScreenSharing := true } stream v rfl hv rfl]
    exact hrep1

/-- C7 witness: the concrete active call, with the concrete screen track. -/
theorem screenshare_replace_and_revert_witness :
    ∃ s1 hd, toggleScreenShare demoActive (Except.ok demoScreenTrack) = (s1, [], some hd) ∧
      s1.isScreenSharing = true ∧
      firstVideoSenderTrack s1 = some demoScreenTrack ∧
      s1.localStream = some demoStream ∧
      (∀ acq, (toggleScreenShare s1 acq).1.isScreenSharing = false ∧
        firstVideoSenderTrack (toggleScreenShare s1 acq).1 = some demoCam ∧
        (toggleScreenShare s1 acq).2.1 = []) ∧
      (screenTrackEnded hd s1).isScreenSharing = false ∧
      firstVideoSenderTrack (screenTrackEnded hd s1) = some demoCam :=
  screenshare_replace_and_revert demoActive demoStream demoCam demoScreenTrack demoPC
    rfl rfl rfl (by decide) rfl rfl

end ChatflowRT
